import Mathlib

/-
Verification of tools/runvmtest/main.go (runvmtest).

The program sets VMTEST_QEMU and VMTEST_KERNEL (if not already set) with
binaries downloaded from container images, then executes a command.  We embed
its data model (the static per-architecture configuration table), its
configuration resolution (defaultConfig), its template rendering (the subset of
Go text/template the program uses: literal text and field actions of the shape
open-delim .Files.name close-delim, where a missing map key renders as the
placeholder <no value>, which is Go text/template's default missingkey
behaviour), and its run logic (runNatively, run) as pure functions producing an
event trace (staging, export, exec, deferred print) together with a result.
External collaborators (the dagger client's export, the child process) are
abstracted as boolean outcome parameters, since the program only branches on
their success.
-/

set_option maxHeartbeats 1000000

namespace Runvmtest

/-- the opening curly brace character of a template action delimiter -/
def lbrace : Char := Char.ofNat 123

/-- the closing curly brace character of a template action delimiter -/
def rbrace : Char := Char.ofNat 125

/-- EnvVar from main.go: a template string, a map of template variable name to
in-container file path, and a map of template variable name to in-container
directory path.  The Go maps are embedded as association lists. -/
structure EnvVar where
  Template : String
  Files : List (String × String)
  Directories : List (String × String)
  deriving DecidableEq

/-- TestEnvConfig from main.go: container name to (env var name to config). -/
abbrev TestEnvConfig := List (String × List (String × EnvVar))

/-- ArchTestConfig from main.go: GOARCH to config for env vars to set up. -/
abbrev ArchTestConfig := List (String × TestEnvConfig)

/-- the static configs table of main.go, verbatim -/
def configs : ArchTestConfig := [
  ("amd64", [
    ("ghcr.io/hugelgupf/vmtest/kernel-amd64:main", [
      ("VMTEST_KERNEL",
        { Template := "\x7b\x7b.Files.bzImage\x7d\x7d",
          Files := [("bzImage", "/bzImage")],
          Directories := [] })]),
    ("ghcr.io/hugelgupf/vmtest/qemu:main", [
      ("VMTEST_QEMU",
        { Template := "\x7b\x7b.Files.qemu\x7d\x7d/bin/qemu-system-x86_64 -L \x7b\x7b.Files.qemu\x7d\x7d/pc-bios -m 1G",
          Files := [],
          Directories := [("qemu", "/zqemu")] })])]),
  ("arm", [
    ("ghcr.io/hugelgupf/vmtest/kernel-arm:main", [
      ("VMTEST_KERNEL",
        { Template := "\x7b\x7b.Files.zImage\x7d\x7d",
          Files := [("zImage", "/zImage")],
          Directories := [] })]),
    ("ghcr.io/hugelgupf/vmtest/qemu:main", [
      ("VMTEST_QEMU",
        { Template := "\x7b\x7b.Files.qemu\x7d\x7d/bin/qemu-system-arm -M virt,highmem=off -L \x7b\x7b.Files.qemu\x7d\x7d/pc-bios",
          Files := [],
          Directories := [("qemu", "/zqemu")] })])]),
  ("arm64", [
    ("ghcr.io/hugelgupf/vmtest/kernel-arm64:main", [
      ("VMTEST_KERNEL",
        { Template := "\x7b\x7b.Files.Image\x7d\x7d",
          Files := [("Image", "/Image")],
          Directories := [] })]),
    ("ghcr.io/hugelgupf/vmtest/qemu:main", [
      ("VMTEST_QEMU",
        { Template := "\x7b\x7b.Files.qemu\x7d\x7d/bin/qemu-system-aarch64 -machine virt -cpu max -m 1G -L \x7b\x7b.Files.qemu\x7d\x7d/pc-bios",
          Files := [],
          Directories := [("qemu", "/zqemu")] })])])]

/-- the ambient process environment, as name-value pairs -/
abbrev Env := List (String × String)

/-- os.Getenv: the value of the variable, or the empty string when unset -/
def getenv (env : Env) (name : String) : String :=
  match env.find? (fun p => p.1 == name) with
  | some p => p.2
  | none => ""

/-- os.Environ: the environment as a list of NAME=value strings -/
def environ (env : Env) : List String :=
  env.map (fun p => p.1 ++ "=" ++ p.2)

/-- defaultConfig from main.go: the config keyed by VMTEST_ARCH when present in
the table, else the one keyed by the running GOARCH when present, else the
empty config (user has to provide all values). -/
def defaultConfig (env : Env) (goarch : String) : TestEnvConfig :=
  match configs.find? (fun p => p.1 == getenv env ("VMTEST_ARCH")) with
  | some p => p.2
  | none =>
    match configs.find? (fun p => p.1 == goarch) with
    | some p => p.2
    | none => []

/-- a parsed template: literal text and field actions reading .Files.name -/
inductive TmplPart where
  | text (s : String)
  | field (name : String)
  deriving DecidableEq

/-- splits the input at every occurrence of the opening delimiter (two opening
braces); the accumulator holds the current chunk reversed -/
def splitOpen (acc : List Char) : List Char → List (List Char)
  | [] => [acc.reverse]
  | [c] => [(c :: acc).reverse]
  | c1 :: c2 :: cs =>
    if c1 = lbrace ∧ c2 = lbrace then acc.reverse :: splitOpen [] cs
    else splitOpen (c1 :: acc) (c2 :: cs)

/-- splits a chunk at the first occurrence of the closing delimiter (two
closing braces); none when the chunk has no closing delimiter -/
def breakClose : List Char → Option (List Char × List Char)
  | [] => none
  | [_] => none
  | c1 :: c2 :: cs =>
    if c1 = rbrace ∧ c2 = rbrace then some ([], cs)
    else
      match breakClose (c2 :: cs) with
      | some p => some (c1 :: p.1, p.2)
      | none => none

/-- recognises the action bodies the program uses: a field chain .Files.name
with an alphanumeric name; anything else is a parse error (Go rejects other
action bodies at parse or at execute, either way before the command runs) -/
def checkAction (inner : List Char) : Option String :=
  match inner with
  | '.' :: 'F' :: 'i' :: 'l' :: 'e' :: 's' :: '.' :: nm =>
    if nm ≠ [] ∧ nm.all (fun c => c.isAlphanum) then some (String.mk nm) else none
  | _ => none

/-- parses one chunk that follows an opening delimiter: the action body, the
closing delimiter, then literal text running to the next opening delimiter -/
def parseSegment (seg : List Char) : Except String (List TmplPart) :=
  match breakClose seg with
  | none => Except.error ("unclosed action")
  | some p =>
    match checkAction p.1 with
    | none => Except.error ("unexpected bad character in action")
    | some name => Except.ok [TmplPart.field name, TmplPart.text (String.mk p.2)]

/-- template.Parse restricted to the syntax the program's templates use:
literal text, with actions delimited by doubled braces whose body is a
.Files.name field chain -/
def parseTmpl (s : String) : Except String (List TmplPart) :=
  match splitOpen [] s.data with
  | [] => Except.ok []
  | t0 :: segs =>
    match segs.mapM parseSegment with
    | Except.error e => Except.error e
    | Except.ok rest => Except.ok (TmplPart.text (String.mk t0) :: rest.flatten)

/-- map lookup where a later insertion overwrites an earlier one, as in a Go
map populated by successive assignments -/
def mapGet (m : List (String × String)) (k : String) : Option String :=
  match m.reverse.find? (fun p => p.1 == k) with
  | some p => some p.2
  | none => none

/-- renders one part: literal text as itself; a field reads the Files map, a
missing key rendering as the default missingkey placeholder -/
def renderPart (files : List (String × String)) : TmplPart → String
  | TmplPart.text s => s
  | TmplPart.field n =>
    match mapGet files n with
    | some v => v
    | none => "<no value>"

/-- tmpl.Execute on the parsed parts: concatenation of the rendered parts -/
def renderParts (files : List (String × String)) (parts : List TmplPart) : String :=
  parts.foldr (fun p acc => renderPart files p ++ acc) ""

/-- drops leading path separators, as filepath.Join's cleaning does when the
second element is an absolute in-container path -/
def dropSeps : List Char → List Char
  | [] => []
  | c :: cs => if c = '/' then dropSeps cs else c :: cs

/-- filepath.Join(dir, p) for an absolute dir without trailing separator and
the program's in-container paths: a single separator between the two -/
def filepathJoin (dir p : String) : String :=
  dir ++ "/" ++ String.mk (dropSeps p.data)

/-- the Files template data assembled in runNatively: for each declared file
and then each declared directory, the host-absolute path under tmp keyed by
the template variable name (lines 184-196 of main.go) -/
def filesMapOf (tmp : String) (v : EnvVar) : List (String × String) :=
  v.Files.map (fun p => (p.1, filepathJoin tmp p.2)) ++
    v.Directories.map (fun p => (p.1, filepathJoin tmp p.2))

/-- template parse and execute for one variable, with the error wrapping of
main.go lines 198-205 (execution itself cannot fail on the supported subset,
so only the parse error path remains) -/
def renderVar (tmp varName : String) (v : EnvVar) : Except String String :=
  match parseTmpl v.Template with
  | Except.error e => Except.error ("invalid " ++ varName ++ " template: " ++ e)
  | Except.ok parts => Except.ok (renderParts (filesMapOf tmp v) parts)

/-- observable actions of a run, in order -/
inductive Event where
  | stageFile (container file : String)
  | stageDir (container dir : String)
  | exportArtifacts
  | execCmd (args childEnv : List String)
  | printAssignments (envv : List String)
  deriving DecidableEq

/-- the staging actions of one spec: WithFile for each declared file, then
WithDirectory for each declared directory -/
def stageEvents (container : String) (v : EnvVar) : List Event :=
  v.Files.map (fun p => Event.stageFile container p.2) ++
    v.Directories.map (fun p => Event.stageDir container p.2)

/-- the inner loop of runNatively over one container's variables: skip a
variable already set by the caller; otherwise stage its files and
directories, render its template, and emit NAME=value; a render failure
returns immediately with the staging performed so far -/
def processVars (env : Env) (tmp container : String) :
    List (String × EnvVar) → List Event × Except String (List String)
  | [] => ([], Except.ok [])
  | (varName, v) :: rest =>
    if getenv env varName ≠ "" then processVars env tmp container rest
    else
      match renderVar tmp varName v with
      | Except.error e => (stageEvents container v, Except.error e)
      | Except.ok s =>
        match processVars env tmp container rest with
        | (evs, Except.error e) => (stageEvents container v ++ evs, Except.error e)
        | (evs, Except.ok envv) =>
          (stageEvents container v ++ evs, Except.ok ((varName ++ "=" ++ s) :: envv))

/-- the outer loop of runNatively over all containers -/
def processConfig (env : Env) (tmp : String) :
    TestEnvConfig → List Event × Except String (List String)
  | [] => ([], Except.ok [])
  | (container, vars) :: rest =>
    match processVars env tmp container vars with
    | (evs1, Except.error e) => (evs1, Except.error e)
    | (evs1, Except.ok envv1) =>
      match processConfig env tmp rest with
      | (evs2, Except.error e) => (evs1 ++ evs2, Except.error e)
      | (evs2, Except.ok envv2) => (evs1 ++ evs2, Except.ok (envv1 ++ envv2))

deriving instance DecidableEq for Except

/-- outcome of a run: the event trace and the returned error, if any -/
structure RunOutcome where
  events : List Event
  result : Except String Unit
  deriving DecidableEq

/-- runNatively from main.go, with tmp the absolute path of the temporary
directory, exportOk the outcome of the artifact export and cmdOk the outcome
of the child command: process every configured variable; then export once
(failure is fatal); then execute the command with the process environment
plus the new assignments appended; with artifact retention the assignments
are printed by a deferred function on every return path registered after the
export, in particular also when the command itself fails -/
def runNatively (env : Env) (keepArtifacts : Bool) (config : TestEnvConfig)
    (args : List String) (tmp : String) (exportOk cmdOk : Bool) : RunOutcome :=
  match processConfig env tmp config with
  | (evs, Except.error e) => ⟨evs, Except.error e⟩
  | (evs, Except.ok envv) =>
    if exportOk then
      ⟨evs ++ [Event.exportArtifacts, Event.execCmd args (environ env ++ envv)] ++
          (if keepArtifacts then [Event.printAssignments envv] else []),
        if cmdOk then Except.ok () else Except.error ("failed execution")⟩
    else
      ⟨evs ++ [Event.exportArtifacts], Except.error ("failed artifact export")⟩

/-- os.MkdirTemp(".", "ci-testing"): the dot directory joined with the prefix
ci-testing followed by the random suffix chosen by the operating system -/
def mkdirTempName (rand : String) : String := "./ci-testing" ++ rand

/-- filepath.Abs for the shapes of path the program produces: an already
absolute path is kept, a dot-slash relative path is joined to the working
directory with the dot segment cleaned away -/
def filepathAbs (cwd p : String) : String :=
  match p.data with
  | '/' :: _ => p
  | '.' :: '/' :: rest => cwd ++ "/" ++ String.mk rest
  | _ => cwd ++ "/" ++ p

/-- run from main.go: reject fewer than two positional arguments with a usage
error; abort when the dagger connection fails; otherwise resolve the default
config, create the temporary directory in the working directory, and delegate
to runNatively -/
def run (env : Env) (goarch : String) (keepArtifacts : Bool) (args : List String)
    (connectOk : Bool) (cwd rand : String) (exportOk cmdOk : Bool) :
    Except String Unit :=
  if args.length < 2 then Except.error ("too few arguments")
  else if connectOk then
    (runNatively env keepArtifacts (defaultConfig env goarch) args
      (filepathAbs cwd (mkdirTempName rand)) exportOk cmdOk).result
  else Except.error ("unable to connect to client")

/-- recognises the staging actions (file or directory copies) among events -/
def isStageEvent : Event → Bool
  | Event.stageFile _ _ => true
  | Event.stageDir _ _ => true
  | _ => false

/-- removes every spec producing the given variable name from a config -/
def eraseVar (name : String) (config : TestEnvConfig) : TestEnvConfig :=
  config.map (fun c => (c.1, c.2.filter (fun v => !(v.1 == name))))

/-- the staging actions of every spec of the configuration surviving the
ambient-override check, in configuration order -/
def allStages (env : Env) (config : TestEnvConfig) : List Event :=
  (config.map (fun c =>
    ((c.2.filter (fun v => getenv env v.1 == "")).map
      (fun v => stageEvents c.1 v.2)).flatten)).flatten

/-- the VMTEST_KERNEL spec of the amd64 entry of the configs table -/
def amd64KernelSpec : EnvVar :=
  { Template := "\x7b\x7b.Files.bzImage\x7d\x7d",
    Files := [(("bzImage"), ("/bzImage"))],
    Directories := [] }

/-- the VMTEST_QEMU spec of the amd64 entry of the configs table -/
def amd64QemuSpec : EnvVar :=
  { Template := "\x7b\x7b.Files.qemu\x7d\x7d/bin/qemu-system-x86_64 -L \x7b\x7b.Files.qemu\x7d\x7d/pc-bios -m 1G",
    Files := [],
    Directories := [(("qemu"), ("/zqemu"))] }

/-- the amd64 entry of the configs table -/
def amd64Config : TestEnvConfig :=
  [(("ghcr.io/hugelgupf/vmtest/kernel-amd64:main"), [(("VMTEST_KERNEL"), amd64KernelSpec)]),
   (("ghcr.io/hugelgupf/vmtest/qemu:main"), [(("VMTEST_QEMU"), amd64QemuSpec)])]

/-- Resolution as the specification words it: the configuration keyed by the
explicit architecture override when the table has it, else the one keyed by
the running host architecture when the table has it, else the empty
configuration; a total function, so no error is ever raised for an unknown
architecture. -/
def resolveSpecified (env : Env) (goarch : String) : TestEnvConfig :=
  let override := getenv env ("VMTEST_ARCH")
  match configs.find? (fun p => p.1 == override), configs.find? (fun p => p.1 == goarch) with
  | some p, _ => p.2
  | none, some p => p.2
  | none, none => []

/-- C7: configuration resolution selects the config keyed by the VMTEST_ARCH
override if present in the table, otherwise the config keyed by the running
host architecture if present, otherwise the empty configuration, and being a
total function it never raises an error for an unknown architecture. -/
theorem c7_resolution_override_then_host_then_empty (env : Env) (goarch : String) :
    defaultConfig env goarch = resolveSpecified env goarch := by
  unfold defaultConfig resolveSpecified
  cases h1 : configs.find? (fun p => p.1 == getenv env ("VMTEST_ARCH")) <;>
    cases h2 : configs.find? (fun p => p.1 == goarch) <;> simp [h1, h2]

theorem stageEvents_stage (container : String) (v : EnvVar) :
    ∀ e ∈ stageEvents container v, isStageEvent e = true := by
  intro e he
  rcases List.mem_append.mp he with h | h
  · obtain ⟨p, hp, he2⟩ := List.mem_map.mp h
    rw [← he2]; rfl
  · obtain ⟨p, hp, he2⟩ := List.mem_map.mp h
    rw [← he2]; rfl

theorem processVars_stage (env : Env) (tmp container : String)
    (vars : List (String × EnvVar)) :
    ∀ e ∈ (processVars env tmp container vars).1, isStageEvent e = true := by
  induction vars with
  | nil => intro e he; simp [processVars] at he
  | cons hd rest ih =>
    obtain ⟨vn, v⟩ := hd
    intro e he
    rw [processVars] at he
    split at he
    · exact ih e he
    · split at he
      · exact stageEvents_stage container v e he
      · split at he
        next evs envv heq =>
          rcases List.mem_append.mp he with h | h
          · exact stageEvents_stage container v e h
          · refine ih e ?_
            rw [heq]
            exact h
        next evs envv heq =>
          rcases List.mem_append.mp he with h | h
          · exact stageEvents_stage container v e h
          · refine ih e ?_
            rw [heq]
            exact h

theorem processConfig_stage (env : Env) (tmp : String) (config : TestEnvConfig) :
    ∀ e ∈ (processConfig env tmp config).1, isStageEvent e = true := by
  induction config with
  | nil => intro e he; simp [processConfig] at he
  | cons hd rest ih =>
    obtain ⟨container, vars⟩ := hd
    intro e he
    rw [processConfig] at he
    split at he
    next evs msg heq =>
      refine processVars_stage env tmp container vars e ?_
      rw [heq]
      exact he
    next evs envv heq =>
      split at he
      all_goals
        rcases List.mem_append.mp he with h | h
      · refine processVars_stage env tmp container vars e ?_
        rw [heq]; exact h
      · rename_i evs2 msg2 heq2
        refine ih e ?_
        rw [heq2]; exact h
      · refine processVars_stage env tmp container vars e ?_
        rw [heq]; exact h
      · rename_i evs2 envv2 heq2
        refine ih e ?_
        rw [heq2]; exact h

theorem runNatively_execCmd (env : Env) (keep : Bool) (config : TestEnvConfig)
    (args : List String) (tmp : String) (eo co : Bool) (a ce : List String) :
    Event.execCmd a ce ∈ (runNatively env keep config args tmp eo co).events →
      a = args ∧ ∃ envv, (processConfig env tmp config).2 = Except.ok envv ∧
        ce = environ env ++ envv := by
  intro hmem
  unfold runNatively at hmem
  split at hmem
  next evs msg heq =>
    have := processConfig_stage env tmp config (Event.execCmd a ce) (by rw [heq]; exact hmem)
    simp [isStageEvent] at this
  next evs envv heq =>
    split at hmem
    · dsimp only at hmem
      rcases List.mem_append.mp hmem with h | h
      · rcases List.mem_append.mp h with h2 | h2
        · have hst := processConfig_stage env tmp config (Event.execCmd a ce)
            (by rw [heq]; exact h2)
          simp [isStageEvent] at hst
        · simp only [List.mem_cons, List.not_mem_nil, or_false] at h2
          rcases h2 with h3 | h3
          · exact absurd h3 (by simp)
          · injection h3 with ha hce
            exact ⟨ha, envv, by rw [heq], hce⟩
      · cases keep <;> simp at h
    · dsimp only at hmem
      rcases List.mem_append.mp hmem with h | h
      · have hst := processConfig_stage env tmp config (Event.execCmd a ce)
          (by rw [heq]; exact h)
        simp [isStageEvent] at hst
      · simp at h

theorem string_mk_append_data (l : List Char) (b : String) :
    String.mk (l ++ b.data) = String.mk l ++ b := by
  cases b
  rfl

/-- C8: the child command's environment is a copy of the current process
environment with the newly rendered NAME=value assignments appended after it;
every ambient variable appears verbatim, and duplicate keys resolve to the
appended assignment since it comes last. -/
theorem c8_child_env_extends_process_env (env : Env) (keep : Bool)
    (config : TestEnvConfig) (args : List String) (tmp : String) (eo co : Bool)
    (a ce : List String)
    (h : Event.execCmd a ce ∈ (runNatively env keep config args tmp eo co).events) :
    a = args ∧ ∃ envv, (processConfig env tmp config).2 = Except.ok envv ∧
      ce = environ env ++ envv ∧ ∀ s ∈ environ env, s ∈ ce := by
  obtain ⟨ha, envv, hpc, hce⟩ := runNatively_execCmd env keep config args tmp eo co a ce h
  refine ⟨ha, envv, hpc, hce, ?_⟩
  intro s hs
  rw [hce]
  exact List.mem_append.mpr (Or.inl hs)

theorem c8_witness :
    [("echo")] = [("echo")] ∧ ∃ envv,
      (processConfig [(("A"), ("1"))] ("/t") []).2 = Except.ok envv ∧
      [("A=1")] = environ [(("A"), ("1"))] ++ envv ∧
      ∀ s ∈ environ [(("A"), ("1"))], s ∈ [("A=1")] :=
  c8_child_env_extends_process_env [(("A"), ("1"))] false [] [("echo")] ("/t")
    true true [("echo")] [("A=1")] (by decide)

/-- C9: with the retention flag set, the computed environment assignments are
printed on every return path reached after the deferred print is registered,
in particular also when the spawned command itself fails with a non-zero
exit, not only on successful execution. -/
theorem c9_retention_prints_assignments (env : Env) (config : TestEnvConfig)
    (args : List String) (tmp : String) (co : Bool) (envv : List String)
    (h : (processConfig env tmp config).2 = Except.ok envv) :
    Event.printAssignments envv ∈ (runNatively env true config args tmp true co).events := by
  unfold runNatively
  split
  next evs msg heq =>
    rw [heq] at h
    simp at h
  next evs envv2 heq =>
    rw [heq] at h
    dsimp only at h
    injection h with h2
    subst h2
    simp [List.mem_append]

theorem c9_witness :
    Event.printAssignments [] ∈
      (runNatively [] true [] [("echo")] ("/t") true false).events :=
  c9_retention_prints_assignments [] [] [("echo")] ("/t") false [] (by decide)

theorem processVars_skip_erased (env : Env) (tmp container name : String)
    (h : getenv env name ≠ "") (vars : List (String × EnvVar)) :
    processVars env tmp container (vars.filter (fun v => !(v.1 == name))) =
      processVars env tmp container vars := by
  induction vars with
  | nil => rfl
  | cons hd rest ih =>
    obtain ⟨vn, v⟩ := hd
    by_cases hvn : vn = name
    · subst hvn
      have hfilter : (((vn, v) :: rest).filter (fun v2 => !(v2.1 == vn))) =
          rest.filter (fun v2 => !(v2.1 == vn)) := by
        simp [List.filter]
      rw [hfilter, ih]
      conv_rhs => rw [processVars, if_pos h]
    · have hb : (vn == name) = false := beq_eq_false_iff_ne.mpr hvn
      have hfilter : (((vn, v) :: rest).filter (fun v2 => !(v2.1 == name))) =
          (vn, v) :: rest.filter (fun v2 => !(v2.1 == name)) := by
        simp [List.filter, hb]
      rw [hfilter]
      rw [processVars]
      conv_rhs => rw [processVars]
      rw [ih]

theorem processConfig_skip_erased (env : Env) (tmp name : String)
    (h : getenv env name ≠ "") (config : TestEnvConfig) :
    processConfig env tmp (eraseVar name config) = processConfig env tmp config := by
  induction config with
  | nil => rfl
  | cons hd rest ih =>
    obtain ⟨container, vars⟩ := hd
    simp only [eraseVar, List.map_cons] at ih ⊢
    rw [processConfig]
    conv_rhs => rw [processConfig]
    rw [processVars_skip_erased env tmp container name h vars, ih]

/-- C1: a spec whose variable name already has a non-empty value in the
ambient environment is skipped entirely: the run with that spec removed from
the configuration is identical (nothing is staged for it and no assignment is
produced for it), and the ambient environment is preserved unchanged at the
front of any executed child's environment. -/
theorem c1_ambient_override_skips_spec (env : Env) (keep : Bool)
    (config : TestEnvConfig) (args : List String) (tmp : String) (eo co : Bool)
    (name : String) (h : getenv env name ≠ "") :
    runNatively env keep (eraseVar name config) args tmp eo co =
      runNatively env keep config args tmp eo co ∧
    ∀ a ce, Event.execCmd a ce ∈ (runNatively env keep config args tmp eo co).events →
      ∃ tail, ce = environ env ++ tail := by
  constructor
  · unfold runNatively
    rw [processConfig_skip_erased env tmp name h config]
  · intro a ce hm
    obtain ⟨ha, envv, hpc, hce⟩ := runNatively_execCmd env keep config args tmp eo co a ce hm
    exact ⟨envv, hce⟩

theorem c1_witness :
    (runNatively [(("VMTEST_KERNEL"), ("/k"))] false
        (eraseVar ("VMTEST_KERNEL") amd64Config) [("echo")] ("/t") true true =
      runNatively [(("VMTEST_KERNEL"), ("/k"))] false amd64Config
        [("echo")] ("/t") true true) ∧
    ∀ a ce, Event.execCmd a ce ∈
        (runNatively [(("VMTEST_KERNEL"), ("/k"))] false amd64Config
          [("echo")] ("/t") true true).events →
      ∃ tail, ce = environ [(("VMTEST_KERNEL"), ("/k"))] ++ tail :=
  c1_ambient_override_skips_spec [(("VMTEST_KERNEL"), ("/k"))] false amd64Config
    [("echo")] ("/t") true true ("VMTEST_KERNEL") (by decide)

theorem processVars_events_ok (env : Env) (tmp container : String)
    (vars : List (String × EnvVar)) :
    ∀ envv, (processVars env tmp container vars).2 = Except.ok envv →
      (processVars env tmp container vars).1 =
        ((vars.filter (fun v2 => getenv env v2.1 == "")).map
          (fun v2 => stageEvents container v2.2)).flatten := by
  induction vars with
  | nil => intro envv h; rfl
  | cons hd rest ih =>
    obtain ⟨vn, v⟩ := hd
    intro envv h
    rw [processVars] at h ⊢
    by_cases hg : getenv env vn ≠ ""
    · rw [if_pos hg] at h ⊢
      have hb : (getenv env vn == "") = false := beq_eq_false_iff_ne.mpr hg
      rw [List.filter_cons]
      simp only [hb, Bool.false_eq_true, if_false]
      exact ih envv h
    · rw [if_neg hg] at h ⊢
      have hb : (getenv env vn == "") = true := beq_iff_eq.mpr (not_ne_iff.mp hg)
      cases hr : renderVar tmp vn v with
      | error msg =>
        rw [hr] at h
        exact Except.noConfusion h
      | ok s =>
        rw [hr] at h
        dsimp only at h ⊢
        cases hpv : processVars env tmp container rest with
        | mk evs res =>
          rw [hpv] at h
          cases res with
          | error msg =>
            exact Except.noConfusion h
          | ok envv2 =>
            dsimp only
            have hevs : evs =
                ((rest.filter (fun v2 => getenv env v2.1 == "")).map
                  (fun v2 => stageEvents container v2.2)).flatten := by
              have h2 := ih envv2 (by rw [hpv])
              rw [hpv] at h2
              exact h2
            rw [List.filter_cons]
            simp only [hb, if_true]
            rw [List.map_cons, List.flatten_cons]
            dsimp only
            rw [hevs]

theorem processConfig_events_ok (env : Env) (tmp : String) (config : TestEnvConfig) :
    ∀ envv, (processConfig env tmp config).2 = Except.ok envv →
      (processConfig env tmp config).1 = allStages env config := by
  induction config with
  | nil => intro envv h; rfl
  | cons hd rest ih =>
    obtain ⟨container, vars⟩ := hd
    intro envv h
    rw [processConfig] at h ⊢
    cases hpv : processVars env tmp container vars with
    | mk evs1 res1 =>
      rw [hpv] at h
      cases res1 with
      | error msg =>
        exact Except.noConfusion h
      | ok envv1 =>
        dsimp only at h ⊢
        cases hpc : processConfig env tmp rest with
        | mk evs2 res2 =>
          rw [hpc] at h
          cases res2 with
          | error msg =>
            exact Except.noConfusion h
          | ok envv2 =>
            have h1 : evs1 =
                ((vars.filter (fun v2 => getenv env v2.1 == "")).map
                  (fun v2 => stageEvents container v2.2)).flatten := by
              have h2 := processVars_events_ok env tmp container vars envv1 (by rw [hpv])
              rw [hpv] at h2
              exact h2
            have h3 : evs2 = allStages env rest := by
              have h4 := ih envv2 (by rw [hpc])
              rw [hpc] at h4
              exact h4
            dsimp only
            rw [h1, h3]
            unfold allStages
            rw [List.map_cons, List.flatten_cons]

/-- C6: when the single export of the assembled root filesystem fails, run
returns an error and the target command is never executed; and whenever the
export is performed at all, it happens only after the staging actions of all
files and directories across all containers. -/
theorem c6_export_failure_fatal_and_after_staging (env : Env) (keep : Bool)
    (config : TestEnvConfig) (args : List String) (tmp : String) (eo co : Bool) :
    (∃ msg, (runNatively env keep config args tmp false co).result = Except.error msg) ∧
    (∀ a ce, Event.execCmd a ce ∉ (runNatively env keep config args tmp false co).events) ∧
    (Event.exportArtifacts ∈ (runNatively env keep config args tmp eo co).events →
      ∃ rest, (runNatively env keep config args tmp eo co).events =
        allStages env config ++ Event.exportArtifacts :: rest) := by
  refine ⟨?_, ?_, ?_⟩
  · unfold runNatively
    split
    · exact ⟨_, rfl⟩
    · exact ⟨_, rfl⟩
  · intro a ce hm
    obtain ⟨ha, envv, hpc, hce⟩ :=
      runNatively_execCmd env keep config args tmp false co a ce hm
    unfold runNatively at hm
    split at hm
    next evs msg heq =>
      rw [heq] at hpc
      dsimp only at hpc
      exact absurd hpc (by simp)
    next evs envv2 heq =>
      rcases List.mem_append.mp hm with h2 | h2
      · have hst := processConfig_stage env tmp config (Event.execCmd a ce)
          (by rw [heq]; exact h2)
        simp [isStageEvent] at hst
      · simp at h2
  · intro hm
    unfold runNatively at hm ⊢
    split at hm
    next evs msg heq =>
      have hst := processConfig_stage env tmp config Event.exportArtifacts
        (by rw [heq]; exact hm)
      simp [isStageEvent] at hst
    next evs envv heq =>
      have hevs : evs = allStages env config := by
        have h2 := processConfig_events_ok env tmp config envv (by rw [heq])
        rw [heq] at h2
        exact h2
      cases eo with
      | false =>
        exact ⟨[], by rw [hevs]; rfl⟩
      | true =>
        refine ⟨[Event.execCmd args (environ env ++ envv)] ++
          (if keep then [Event.printAssignments envv] else []), ?_⟩
        rw [hevs]
        simp [List.append_assoc, List.cons_append]

theorem c6_witness :
    ∃ rest, (runNatively [] false amd64Config [("echo")] ("/t") true true).events =
      allStages [] amd64Config ++ Event.exportArtifacts :: rest :=
  (c6_export_failure_fatal_and_after_staging [] false amd64Config [("echo")]
    ("/t") true true).2.2 (by decide)

theorem renderVar_amd64_kernel (tmp : String) :
    renderVar tmp ("VMTEST_KERNEL") amd64KernelSpec = Except.ok (tmp ++ ("/bzImage")) := by
  have hd : String.mk (dropSeps (("/bzImage").data)) = ("bzImage") := rfl
  have hm : ("/bzImage") = ("/") ++ ("bzImage") := rfl
  have hp : parseTmpl amd64KernelSpec.Template =
      Except.ok [TmplPart.text (""), TmplPart.field ("bzImage"), TmplPart.text ("")] := rfl
  unfold renderVar
  rw [hp]
  simp [renderParts, renderPart, filesMapOf, amd64KernelSpec, mapGet, filepathJoin,
    hd, hm, String.empty_append, String.append_empty, String.append_assoc]

theorem renderVar_amd64_qemu (tmp : String) :
    renderVar tmp ("VMTEST_QEMU") amd64QemuSpec =
      Except.ok (tmp ++ (("/zqemu/bin/qemu-system-x86_64 -L ") ++
        (tmp ++ ("/zqemu/pc-bios -m 1G")))) := by
  have hd : String.mk (dropSeps (("/zqemu").data)) = ("zqemu") := rfl
  have hb : ∀ s2 : String, ("/zqemu") ++ (("/bin/qemu-system-x86_64 -L ") ++ s2) =
      ("/zqemu/bin/qemu-system-x86_64 -L ") ++ s2 := by
    intro s2
    rw [← String.append_assoc]
    rfl
  have hp : parseTmpl amd64QemuSpec.Template =
      Except.ok [TmplPart.text (""), TmplPart.field ("qemu"),
        TmplPart.text ("/bin/qemu-system-x86_64 -L "), TmplPart.field ("qemu"),
        TmplPart.text ("/pc-bios -m 1G")] := rfl
  unfold renderVar
  rw [hp]
  simp [renderParts, renderPart, filesMapOf, amd64QemuSpec, mapGet, filepathJoin,
    hd, hb, String.empty_append, String.append_empty, String.append_assoc]

/-- C2: for architecture amd64 with no ambient VMTEST_KERNEL or VMTEST_QEMU,
materialization produces exactly the assignment VMTEST_KERNEL=tmp/bzImage and
the assignment VMTEST_QEMU=tmp/zqemu/bin/qemu-system-x86_64 -L
tmp/zqemu/pc-bios -m 1G, where tmp is the absolute path of the per-run
temporary directory. -/
theorem c2_amd64_materialization (env : Env) (tmp : String)
    (ha : getenv env ("VMTEST_ARCH") = "")
    (hk : getenv env ("VMTEST_KERNEL") = "")
    (hq : getenv env ("VMTEST_QEMU") = "") :
    (processConfig env tmp (defaultConfig env ("amd64"))).2 =
      Except.ok [("VMTEST_KERNEL=") ++ (tmp ++ ("/bzImage")),
        ("VMTEST_QEMU=") ++ (tmp ++ (("/zqemu/bin/qemu-system-x86_64 -L ") ++
          (tmp ++ ("/zqemu/pc-bios -m 1G"))))] := by
  have hdc : defaultConfig env ("amd64") = amd64Config := by
    unfold defaultConfig
    rw [ha]
    rfl
  have hk2 : ("VMTEST_KERNEL=") = ("VMTEST_KERNEL") ++ ("=") := rfl
  have hq2 : ("VMTEST_QEMU=") = ("VMTEST_QEMU") ++ ("=") := rfl
  rw [hdc]
  simp only [amd64Config, processConfig, processVars, hk, hq, ne_eq,
    not_true_eq_false, not_false_eq_true, if_false, ite_false, ite_true,
    renderVar_amd64_kernel, renderVar_amd64_qemu]
  simp [hk2, hq2, String.append_assoc]

theorem c2_witness :
    (processConfig [] ("/T") (defaultConfig [] ("amd64"))).2 =
      Except.ok [("VMTEST_KERNEL=") ++ (("/T") ++ ("/bzImage")),
        ("VMTEST_QEMU=") ++ (("/T") ++ (("/zqemu/bin/qemu-system-x86_64 -L ") ++
          (("/T") ++ ("/zqemu/pc-bios -m 1G"))))] :=
  c2_amd64_materialization [] ("/T") rfl rfl rfl

/-- C4 (amended): for an architecture with no entry in the static table, when
no ambient override selects one either, resolution yields the empty
configuration and the run proceeds rather than failing by itself: it produces
no assignments, an executed child receives exactly the unchanged process
environment, and the outcome is decided solely by the export and the command,
so a run with a succeeding export and command returns success. -/
theorem c4_unknown_arch_empty_config_proceeds (env : Env) (goarch : String)
    (h1 : configs.find? (fun p => p.1 == getenv env ("VMTEST_ARCH")) = none)
    (h2 : configs.find? (fun p => p.1 == goarch) = none)
    (keep : Bool) (args : List String) (hargs : 2 ≤ args.length)
    (cwd rand : String) (eo co : Bool) :
    defaultConfig env goarch = [] ∧
    (run env goarch keep args true cwd rand eo co =
      (if eo then (if co then Except.ok () else Except.error ("failed execution"))
       else Except.error ("failed artifact export"))) ∧
    (∀ a ce, Event.execCmd a ce ∈
        (runNatively env keep (defaultConfig env goarch) args
          (filepathAbs cwd (mkdirTempName rand)) eo co).events →
      ce = environ env) := by
  have hdc : defaultConfig env goarch = [] := by
    unfold defaultConfig
    rw [h1, h2]
  refine ⟨hdc, ?_, ?_⟩
  · unfold run
    rw [if_neg (by omega), if_pos rfl, hdc]
    cases eo <;> cases co <;> rfl
  · intro a ce hm
    rw [hdc] at hm
    obtain ⟨ha, envv, hpc, hce⟩ := runNatively_execCmd env keep [] args
      (filepathAbs cwd (mkdirTempName rand)) eo co a ce hm
    have h3 : Except.ok ([] : List String) = Except.ok envv := hpc
    injection h3 with h4
    rw [hce, ← h4, List.append_nil]

theorem c4_witness :
    defaultConfig [] ("riscv64") = [] ∧
    (run [] ("riscv64") false [("echo"), ("hi")] true ("/work") ("123") true true =
      (if true then (if true then Except.ok () else Except.error ("failed execution"))
       else Except.error ("failed artifact export"))) ∧
    (∀ a ce, Event.execCmd a ce ∈
        (runNatively [] false (defaultConfig [] ("riscv64")) [("echo"), ("hi")]
          (filepathAbs ("/work") (mkdirTempName ("123"))) true true).events →
      ce = environ []) :=
  c4_unknown_arch_empty_config_proceeds [] ("riscv64") rfl rfl false
    [("echo"), ("hi")] (by decide) ("/work") ("123") true true

/-- C5 (amended): a malformed template is fatal: run returns an error whose
message names the offending environment variable and the target command is
never executed; but a template substituting an undeclared template-variable
name is not an error: rendering a well-formed template always succeeds, an
undeclared reference producing the placeholder text, and the run proceeds. -/
theorem c5_template_error_naming_and_placeholder (env : Env)
    (tmp container varName : String) (v : EnvVar) (args : List String)
    (keep eo co : Bool) (hskip : getenv env varName = "") :
    (∀ m, parseTmpl v.Template = Except.error m →
      (runNatively env keep [(container, [(varName, v)])] args tmp eo co).result =
        Except.error (("invalid ") ++ varName ++ (" template: ") ++ m) ∧
      ∀ a ce, Event.execCmd a ce ∉
        (runNatively env keep [(container, [(varName, v)])] args tmp eo co).events) ∧
    (∀ parts, parseTmpl v.Template = Except.ok parts →
      (processVars env tmp container [(varName, v)]).2 =
        Except.ok [varName ++ ("=") ++ renderParts (filesMapOf tmp v) parts]) ∧
    (∀ n, mapGet (filesMapOf tmp v) n = none →
      renderPart (filesMapOf tmp v) (TmplPart.field n) = ("<no value>")) := by
  refine ⟨?_, ?_, ?_⟩
  · intro m hp
    have hrv : renderVar tmp varName v =
        Except.error (("invalid ") ++ varName ++ (" template: ") ++ m) := by
      unfold renderVar
      rw [hp]
    have hpv : processVars env tmp container [(varName, v)] =
        (stageEvents container v,
          Except.error (("invalid ") ++ varName ++ (" template: ") ++ m)) := by
      rw [processVars, if_neg (not_ne_iff.mpr hskip), hrv]
    have hpc : processConfig env tmp [(container, [(varName, v)])] =
        (stageEvents container v,
          Except.error (("invalid ") ++ varName ++ (" template: ") ++ m)) := by
      rw [processConfig, hpv]
    constructor
    · unfold runNatively
      rw [hpc]
    · intro a ce hm
      unfold runNatively at hm
      rw [hpc] at hm
      have hst := stageEvents_stage container v (Event.execCmd a ce) hm
      simp [isStageEvent] at hst
  · intro parts hp
    have hrv : renderVar tmp varName v =
        Except.ok (renderParts (filesMapOf tmp v) parts) := by
      unfold renderVar
      rw [hp]
    rw [processVars, if_neg (not_ne_iff.mpr hskip), hrv]
    rfl
  · intro n hn
    have hrp : renderPart (filesMapOf tmp v) (TmplPart.field n) =
        (match mapGet (filesMapOf tmp v) n with
          | some w => w
          | none => ("<no value>")) := rfl
    rw [hrp, hn]

theorem c5_witness :
    (runNatively [] false [(("img"), [(("FOO"),
          { Template := ("\x7b\x7bbad"), Files := [], Directories := [] })])]
        [("echo")] ("/t") true true).result =
      Except.error (("invalid ") ++ ("FOO") ++ (" template: ") ++ ("unclosed action")) ∧
    ∀ a ce, Event.execCmd a ce ∉
      (runNatively [] false [(("img"), [(("FOO"),
          { Template := ("\x7b\x7bbad"), Files := [], Directories := [] })])]
        [("echo")] ("/t") true true).events :=
  (c5_template_error_naming_and_placeholder [] ("/t") ("img") ("FOO")
    { Template := ("\x7b\x7bbad"), Files := [], Directories := [] }
    [("echo")] false true true rfl).1 ("unclosed action") rfl

/-- C10: the per-run temporary artifact directory is created inside the
current working directory, not the system temporary location, under a name
beginning with ci-testing, and every path substituted into a template is the
absolute form of that directory joined with the spec's declared in-container
path. -/
theorem c10_tmpdir_location_and_joined_paths (cwd rand : String) (v : EnvVar) :
    (∃ s2, mkdirTempName rand = ("./") ++ (("ci-testing") ++ s2)) ∧
    filepathAbs cwd (mkdirTempName rand) = cwd ++ (("/") ++ (("ci-testing") ++ rand)) ∧
    (∀ n val, (n, val) ∈ filesMapOf (filepathAbs cwd (mkdirTempName rand)) v →
      ∃ p, ((n, p) ∈ v.Files ∨ (n, p) ∈ v.Directories) ∧
        val = filepathJoin (filepathAbs cwd (mkdirTempName rand)) p) := by
  refine ⟨⟨rand, ?_⟩, ?_, ?_⟩
  · unfold mkdirTempName
    rw [← String.append_assoc]
    rfl
  · have hdata : (("./ci-testing") ++ rand).data =
        '.' :: '/' :: ((("ci-testing").data) ++ rand.data) := by
      rw [String.data_append]
      rfl
    have hms : String.mk (("ci-testing").data) = ("ci-testing") := rfl
    unfold filepathAbs mkdirTempName
    rw [hdata]
    show cwd ++ ("/") ++ String.mk ((("ci-testing").data) ++ rand.data) =
      cwd ++ (("/") ++ (("ci-testing") ++ rand))
    rw [string_mk_append_data ((("ci-testing")).data) rand, hms,
      String.append_assoc]
  · intro n val hm
    unfold filesMapOf at hm
    rcases List.mem_append.mp hm with h | h
    · obtain ⟨q, hq, he⟩ := List.mem_map.mp h
      obtain ⟨qn, qp⟩ := q
      injection he with he1 he2
      exact ⟨qp, Or.inl (he1 ▸ hq), he2.symm⟩
    · obtain ⟨q, hq, he⟩ := List.mem_map.mp h
      obtain ⟨qn, qp⟩ := q
      injection he with he1 he2
      exact ⟨qp, Or.inr (he1 ▸ hq), he2.symm⟩

theorem c10_witness :
    ∃ p, (((("bzImage") : String), p) ∈ amd64KernelSpec.Files ∨
        ((("bzImage") : String), p) ∈ amd64KernelSpec.Directories) ∧
      filepathJoin (filepathAbs ("/work") (mkdirTempName ("123"))) ("/bzImage") =
        filepathJoin (filepathAbs ("/work") (mkdirTempName ("123"))) p :=
  (c10_tmpdir_location_and_joined_paths ("/work") ("123") amd64KernelSpec).2.2
    ("bzImage") (filepathJoin (filepathAbs ("/work") (mkdirTempName ("123"))) ("/bzImage"))
    (by decide)

/-- C3: the code rejects an invocation with exactly one positional argument
(the command alone, the very invocation its own usage string displays): with
fewer than two positional arguments run returns the usage error, so a single
command does not pass argument validation. -/
theorem c3_single_positional_argument_rejected :
    run [] ("amd64") false [("./test-to-run")] true ("/work") ("123") true true =
      Except.error ("too few arguments") := rfl

/-- C4 (counterexample): for the architecture riscv64, which has no entry in
the static table, with an empty ambient environment, a succeeding export and a
succeeding command, run returns success, so the run does not fail merely
because the architecture is unsupported. -/
theorem c4_counterexample :
    run [] ("riscv64") false [("echo"), ("hi")] true ("/work") ("123") true true =
      Except.ok () := rfl

/-- C5 (counterexample): a spec whose template substitutes the undeclared name
missing does not abort the run: the run succeeds and the command is executed,
with the variable bound to the placeholder text rather than surfacing an
error. -/
theorem c5_counterexample :
    (runNatively [] false [(("img"), [(("FOO"),
          { Template := "\x7b\x7b.Files.missing\x7d\x7d", Files := [], Directories := [] })])]
        [("echo")] ("/t") true true).result = Except.ok () ∧
    Event.execCmd [("echo")] [("FOO=<no value>")] ∈
      (runNatively [] false [(("img"), [(("FOO"),
          { Template := "\x7b\x7b.Files.missing\x7d\x7d", Files := [], Directories := [] })])]
        [("echo")] ("/t") true true).events := by
  constructor
  · rfl
  · decide

end Runvmtest
